import Mathlib

/-!
# Verification of the SRE-agent action-gating engine

Shallow embedding of the policy/caching/classification core of the
`agenticlabs` repository:

* `ActionPolicies` (`agentic-sre-demo/sre_agent.py`, lines 166-265):
  admission checks (`can_execute_action`), dispatch and audit trail
  (`execute_action`), and the five concrete action handlers.
* `InsightCache` (`sre_agent.py`, lines 137-164): TTL-stamped
  store/retrieve.
* `SimpleSREDatabaseAgent.get_matching_query`
  (`simple_postgres_agent.py`, lines 162-179): keyword classification.

Python floats are modelled as rationals, `datetime` instants as integer
seconds (`datetime.now()` becomes an explicit `now : ℤ` argument), and
Python dictionaries as association lists over a small `Value` type.
-/

namespace SreAgent

/-- Python values that appear in `params` dictionaries and in the
handler result dictionaries of `sre_agent.py`.  Every list value the
code constructs or reads is a list of strings, so lists are carried at
that type. -/
inductive Value where
  | vStr (s : String)
  | vNum (q : ℚ)
  | vBool (b : Bool)
  | vStrList (xs : List String)
  | vNone
deriving DecidableEq, Repr

/-- A Python `Dict[str, Any]` as an association list (keys unique in
all dictionaries the code builds). -/
abbrev Dict := List (String × Value)

/-- Dictionary lookup (`d[k]` / `k in d`). -/
def getVal (d : Dict) (k : String) : Option Value :=
  match d with
  | [] => none
  | (k', v) :: rest => if k' = k then some v else getVal rest k

/-- Python `d.get(k, default)`. -/
def dictGetD (d : Dict) (k : String) (default : Value) : Value :=
  (getVal d k).getD default

/-- Numeric reading of a value where the Python code uses it as a float
(the non-numeric case, which would raise a `TypeError` in Python, is
outside the behaviours specified and is mapped to `0`). -/
def asNum : Value → ℚ
  | .vNum q => q
  | _ => 0

/-- `SREConfig` (`sre_agent.py`, lines 62-104), restricted to the fields
the action engine and handlers read.  Defaults are the dataclass
defaults. -/
structure SREConfig where
  auto_remediation_enabled : Bool := true
  auto_rollback_threshold : ℚ := mkRat 4 5
  max_auto_actions_per_incident : ℤ := 3
  jira_base_url : String := "https://jira.company.com"
  slack_webhook_url : String := "https://hooks.slack.com/services/..."
deriving DecidableEq, Repr

/-- The default configuration `SREConfig()`. -/
def defaultCfg : SREConfig := {}

/-- `ActionType` (`sre_agent.py`, lines 51-60): the eight enum variants. -/
inductive ActionType where
  | summarize_incident
  | propose_remediation
  | trigger_auto_rollback
  | open_jira_ticket
  | open_slack_channel
  | scale_service
  | restart_service
  | update_config
deriving DecidableEq, Repr

/-- The `.value` string of each enum member. -/
def ActionType.value : ActionType → String
  | .summarize_incident => "summarize_incident"
  | .propose_remediation => "propose_remediation"
  | .trigger_auto_rollback => "trigger_auto_rollback"
  | .open_jira_ticket => "open_jira_ticket"
  | .open_slack_channel => "open_slack_channel"
  | .scale_service => "scale_service"
  | .restart_service => "restart_service"
  | .update_config => "update_config"

/-- An entry of `self.action_history` (`sre_agent.py`, lines 208-214):
`{"action_type": ..., "params": ..., "result": ..., "timestamp": ...}`.
The timestamp is the `datetime.now()` at which the action executed,
in seconds. -/
structure ActionRecord where
  action_type : ActionType
  params : Dict
  result : Dict
  timestamp : ℤ
deriving DecidableEq, Repr

/-- One hour, the hard-coded `timedelta(hours=1)` lookback, in seconds. -/
def hourSeconds : ℤ := 3600

/-- The `recent_actions` list comprehension (`sre_agent.py`, lines
182-183): history entries with `now - timestamp < 1 hour`. -/
def recentActions (hist : List ActionRecord) (now : ℤ) : List ActionRecord :=
  hist.filter (fun a => now - a.timestamp < hourSeconds)

/-- Number of history records inside the trailing one-hour window. -/
def windowCount (hist : List ActionRecord) (now : ℤ) : ℕ :=
  (recentActions hist now).length

/-- `ActionPolicies.can_execute_action` (`sre_agent.py`, lines 173-187).
`self` is split into `cfg` and `hist`; `datetime.now()` is the explicit
`now`.  The `action_type` argument is, as in the source, never read. -/
def can_execute_action (cfg : SREConfig) (hist : List ActionRecord)
    (action_type : ActionType) (confidence : ℚ) (now : ℤ) : Bool :=
  if ¬ cfg.auto_remediation_enabled then false
  else if confidence < cfg.auto_rollback_threshold then false
  else if (windowCount hist now : ℤ) ≥ cfg.max_auto_actions_per_incident then false
  else true

/-- The labels of the three admission checks, as §4.3 / §7 of the spec
name them.  The code itself returns a bare `False` from every failing
check; the label identifies which `return False` fired first. -/
inductive RejectReason where
  | policy_disabled
  | confidence_below_threshold
  | rate_limit_exceeded
deriving DecidableEq, Repr

/-- Modelled from the spec: the admission algorithm of §4.3 with its
named rejection reasons, evaluated in the spec's order (kill-switch,
confidence, rate limit).  The branches mirror `can_execute_action`
one-for-one; only the labels are spec vocabulary, since the code
collapses every rejection into `False` /
`{"success": False, "reason": "Action blocked by policies"}`. -/
def admissionReason (cfg : SREConfig) (hist : List ActionRecord)
    (confidence : ℚ) (now : ℤ) : Option RejectReason :=
  if ¬ cfg.auto_remediation_enabled then some .policy_disabled
  else if confidence < cfg.auto_rollback_threshold then some .confidence_below_threshold
  else if (windowCount hist now : ℤ) ≥ cfg.max_auto_actions_per_incident then
    some .rate_limit_exceeded
  else none

/-- Rendering of a `Value` inside a Python f-string.  Exact only on
strings (the only case the repository exercises); the textual form of
interpolated non-string values is abstracted and no theorem below
depends on it. -/
def pyStr : Value → String
  | .vStr s => s
  | .vNum q => toString q
  | .vBool b => bif b then "True" else "False"
  | .vNone => "None"
  | .vStrList xs => "[" ++ String.intercalate ", " xs ++ "]"

/-- `ActionPolicies._summarize_incident` (`sre_agent.py`, lines 222-229). -/
def summarize_incident_h (params : Dict) : Dict :=
  [("success", .vBool true),
   ("summary", .vStr ("Incident summary for "
      ++ pyStr (dictGetD params "incident_id" (.vStr "unknown")))),
   ("severity", dictGetD params "severity" (.vStr "medium")),
   ("affected_services", dictGetD params "affected_services" (.vStrList []))]

/-- `ActionPolicies._propose_remediation` (`sre_agent.py`, lines 231-241). -/
def propose_remediation_h (_params : Dict) : Dict :=
  [("success", .vBool true),
   ("remediation_steps", .vStrList
      ["1. Restart affected service",
       "2. Scale up resources if needed",
       "3. Update monitoring thresholds"]),
   ("estimated_time", .vStr "15 minutes")]

/-- `ActionPolicies._trigger_auto_rollback` (`sre_agent.py`, lines
243-249).  `params.get("deployment_id")` with no default yields Python
`None` when the key is absent. -/
def trigger_auto_rollback_h (params : Dict) : Dict :=
  [("success", .vBool true),
   ("rollback_target", dictGetD params "deployment_id" .vNone),
   ("status", .vStr "rollback_initiated")]

/-- The `datetime.now().strftime('%Y%m%d%H%M%S')` stamp used by the
Jira handler, as a function of the clock.  The digit formatting of the
wall-clock instant is abstracted (no claim depends on it). -/
def clockStamp (now : ℤ) : String := toString now

/-- `ActionPolicies._open_jira_ticket` (`sre_agent.py`, lines 251-257). -/
def open_jira_ticket_h (cfg : SREConfig) (now : ℤ) : Dict :=
  [("success", .vBool true),
   ("ticket_id", .vStr ("JIRA-" ++ clockStamp now)),
   ("url", .vStr (cfg.jira_base_url ++ "/browse/JIRA-" ++ clockStamp now))]

/-- `ActionPolicies._open_slack_channel` (`sre_agent.py`, lines 259-265). -/
def open_slack_channel_h (cfg : SREConfig) (params : Dict) : Dict :=
  [("success", .vBool true),
   ("channel_name", .vStr ("incident-"
      ++ pyStr (dictGetD params "incident_id" (.vStr "unknown")))),
   ("webhook_url", .vStr cfg.slack_webhook_url)]

/-- The `if/elif/else` dispatch inside `execute_action` (`sre_agent.py`,
lines 195-206).  Only five of the eight `ActionType` variants have a
branch; the remaining three fall into the `else`. -/
def dispatch (cfg : SREConfig) (now : ℤ) (action_type : ActionType)
    (params : Dict) : Dict :=
  match action_type with
  | .summarize_incident => summarize_incident_h params
  | .propose_remediation => propose_remediation_h params
  | .trigger_auto_rollback => trigger_auto_rollback_h params
  | .open_jira_ticket => open_jira_ticket_h cfg now
  | .open_slack_channel => open_slack_channel_h cfg params
  | _ => [("success", .vBool false), ("reason", .vStr "Unknown action type")]

/-- `{"success": False, "reason": "Action blocked by policies"}`
(`sre_agent.py`, line 192). -/
def blockedResult : Dict :=
  [("success", .vBool false), ("reason", .vStr "Action blocked by policies")]

/-- `{"success": False, "reason": "Unknown action type"}`
(`sre_agent.py`, line 206). -/
def unknownResult : Dict :=
  [("success", .vBool false), ("reason", .vStr "Unknown action type")]

/-- `{"success": False, "error": str(e)}` produced by the `except`
clause (`sre_agent.py`, lines 218-220). -/
def caughtResult (e : String) : Dict :=
  [("success", .vBool false), ("error", .vStr e)]

/-- `params.get("confidence", 0.0)` read as a float
(`sre_agent.py`, line 191). -/
def confidenceOf (params : Dict) : ℚ :=
  asNum (dictGetD params "confidence" (.vNum 0))

/-- `ActionPolicies.execute_action` (`sre_agent.py`, lines 189-220) with
the outcome of the `try`-block's dispatch made an explicit argument:
`.ok r` models the handler returning `r`, `.error e` models the handler
raising an exception with message `e`.  A raised exception transfers
control past the `self.action_history.append(...)` (lines 208-214)
straight to the `except` clause (lines 218-220), so no record is made
in that case. -/
def execute_action_with (cfg : SREConfig) (hist : List ActionRecord)
    (action_type : ActionType) (params : Dict) (now : ℤ)
    (handler : Except String Dict) : Dict × List ActionRecord :=
  if can_execute_action cfg hist action_type (confidenceOf params) now then
    match handler with
    | .ok result => (result, hist ++ [⟨action_type, params, result, now⟩])
    | .error e => (caughtResult e, hist)
  else
    (blockedResult, hist)

/-- `ActionPolicies.execute_action` with the actual dispatch of
`sre_agent.py`; the five concrete handlers are pure dictionary builders
and never raise, so the handler outcome is always `.ok`. -/
def execute_action (cfg : SREConfig) (hist : List ActionRecord)
    (action_type : ActionType) (params : Dict) (now : ℤ) :
    Dict × List ActionRecord :=
  execute_action_with cfg hist action_type params now
    (.ok (dispatch cfg now action_type params))

/-- A sequence of calls to `execute_action` against the same
`ActionPolicies` instance: each submission is `(action_type, params)`
together with the `datetime.now()` at which it runs.  Returns the list
of results in order and the final `action_history`. -/
def submitAll (cfg : SREConfig) (hist : List ActionRecord) :
    List (ActionType × Dict × ℤ) → List Dict × List ActionRecord
  | [] => ([], hist)
  | (a, p, t) :: rest =>
    let step := execute_action cfg hist a p t
    let tail := submitAll cfg step.2 rest
    (step.1 :: tail.1, tail.2)

/-- The clock value of one submission. -/
def timeOf (s : ActionType × Dict × ℤ) : ℤ := s.2.2

/-! ## InsightCache (`sre_agent.py`, lines 137-164) -/

/-- One value of `self._cache`: `{"data": ..., "timestamp": ..., "ttl": ...}`,
with the ISO timestamp modelled as integer seconds. -/
structure InsightEntry where
  data : Dict
  timestamp : ℤ
  ttl : ℤ
deriving DecidableEq, Repr

/-- The in-memory `self._cache` mapping, keys unique. -/
abbrev Cache := List (String × InsightEntry)

/-- Lookup in the cache mapping (`insight_type in self._cache` /
`self._cache[insight_type]`). -/
def cacheGet (c : Cache) (k : String) : Option InsightEntry :=
  match c with
  | [] => none
  | (k', e) :: rest => if k' = k then some e else cacheGet rest k

/-- Python dictionary assignment `self._cache[k] = e`: replaces the
entry for `k` if one exists, otherwise adds one. -/
def cacheSet (c : Cache) (k : String) (e : InsightEntry) : Cache :=
  match c with
  | [] => [(k, e)]
  | (k', e') :: rest =>
    if k' = k then (k, e) :: rest else (k', e') :: cacheSet rest k e

/-- `InsightCache.store_insight` (`sre_agent.py`, lines 144-150):
stamps the entry with the current time and the given TTL. -/
def store_insight (c : Cache) (insight_type : String) (data : Dict)
    (ttl : ℤ) (now : ℤ) : Cache :=
  cacheSet c insight_type ⟨data, now, ttl⟩

/-- `InsightCache.get_insight` (`sre_agent.py`, lines 152-160): returns
the stored data only while `now - timestamp < ttl`, else `None`. -/
def get_insight (c : Cache) (insight_type : String) (now : ℤ) : Option Dict :=
  match cacheGet c insight_type with
  | some insight => if now - insight.timestamp < insight.ttl then some insight.data else none
  | none => none

/-! ## Keyword classification
(`simple_postgres_agent.py`, lines 27-179) -/

/-- Python `str.lower()`: simple per-character lowercasing
(`Char.toLower`; the repository's keyword lists and demo inputs are
ASCII). -/
def pyLower (s : String) : String :=
  ⟨s.data.map Char.toLower⟩

/-- Python substring test `pat in hay` on character lists. -/
def isSubList (pat : List Char) : List Char → Bool
  | [] => pat.isEmpty
  | c :: rest => pat.isPrefixOf (c :: rest) || isSubList pat rest

/-- Python `pat in hay` on strings. -/
def strContains (hay pat : String) : Bool :=
  isSubList pat.data hay.data

/-- The `keywords` entry of each pattern of `self.query_patterns`
(`simple_postgres_agent.py`, lines 27-160), in dictionary insertion
order.  The SQL text of each pattern plays no part in matching and is
omitted. -/
def queryPatterns : List (String × List String) :=
  [("system_health", ["system health", "metrics", "cpu", "memory", "disk"]),
   ("active_alerts", ["active alerts", "alerts", "alert"]),
   ("open_incidents", ["open incidents", "incidents", "incident"]),
   ("performance_metrics", ["performance", "response time", "error rate", "throughput"]),
   ("automated_actions", ["automated actions", "actions", "automation"]),
   ("jira_tickets", ["jira", "tickets", "ticket"]),
   ("slack_channels", ["slack", "channels", "channel"]),
   ("high_error_rates", ["error rate", "high error", "errors"]),
   ("incidents_by_severity", ["severity", "critical", "high", "medium", "low"]),
   ("service_response_times", ["response time", "average response", "latency"])]

/-- The score of one pattern: how many of its keywords occur as
substrings of the (already lower-cased) input
(`simple_postgres_agent.py`, lines 170-173). -/
def matchScore (lower : String) (keywords : List String) : ℕ :=
  (keywords.filter (fun k => strContains lower k)).length

/-- `SimpleSREDatabaseAgent.get_matching_query`
(`simple_postgres_agent.py`, lines 162-179): lower-case the input, scan
every pattern in order keeping the first pattern whose score strictly
exceeds the best so far (`best_match = None`, `best_score = 0`,
update on `score > best_score`). -/
def get_matching_query (user_input : String) : Option String :=
  let lower := pyLower user_input
  (queryPatterns.foldl
    (fun best pat =>
      let score := matchScore lower pat.2
      if score > best.2 then (some pat.1, score) else best)
    ((none : Option String), 0)).1

/-- Modelled from the spec: the classification rule of §4.2 step 2 as
the spec words it — "the first rule whose trigger-keyword set has a
non-empty intersection with the input wins, first match
short-circuits".  Stated for comparison against `get_matching_query`,
which is the source's actual procedure. -/
def firstMatchQuery (user_input : String) : Option String :=
  let lower := pyLower user_input
  (queryPatterns.find? (fun pat => pat.2.any (fun k => strContains lower k))).map
    Prod.fst

/-! ## Helper lemmas about the admission checks -/

lemma can_execute_iff (cfg : SREConfig) (hist : List ActionRecord)
    (aty : ActionType) (conf : ℚ) (now : ℤ) :
    can_execute_action cfg hist aty conf now = true ↔
      cfg.auto_remediation_enabled = true ∧
      ¬ conf < cfg.auto_rollback_threshold ∧
      (windowCount hist now : ℤ) < cfg.max_auto_actions_per_incident := by
  unfold can_execute_action
  split_ifs with h1 h2 h3 <;> simp_all

lemma can_execute_eq_isNone_admissionReason (cfg : SREConfig)
    (hist : List ActionRecord) (aty : ActionType) (conf : ℚ) (now : ℤ) :
    can_execute_action cfg hist aty conf now =
      (admissionReason cfg hist conf now).isNone := by
  unfold can_execute_action admissionReason
  split_ifs <;> rfl

lemma can_execute_false_of_low_conf (cfg : SREConfig) (hist : List ActionRecord)
    (aty : ActionType) (conf : ℚ) (now : ℤ)
    (h : conf < cfg.auto_rollback_threshold) :
    can_execute_action cfg hist aty conf now = false := by
  unfold can_execute_action
  split_ifs <;> rfl

lemma can_execute_false_of_disabled (cfg : SREConfig) (hist : List ActionRecord)
    (aty : ActionType) (conf : ℚ) (now : ℤ)
    (h : cfg.auto_remediation_enabled = false) :
    can_execute_action cfg hist aty conf now = false := by
  unfold can_execute_action
  rw [if_pos (by simp [h])]

lemma exec_blocked_of_not_admitted (cfg : SREConfig) (hist : List ActionRecord)
    (aty : ActionType) (params : Dict) (now : ℤ)
    (h : can_execute_action cfg hist aty (confidenceOf params) now = false) :
    execute_action cfg hist aty params now = (blockedResult, hist) := by
  unfold execute_action execute_action_with
  simp [h]

lemma exec_of_admitted (cfg : SREConfig) (hist : List ActionRecord)
    (aty : ActionType) (params : Dict) (now : ℤ)
    (h : can_execute_action cfg hist aty (confidenceOf params) now = true) :
    execute_action cfg hist aty params now =
      (dispatch cfg now aty params,
       hist ++ [⟨aty, params, dispatch cfg now aty params, now⟩]) := by
  unfold execute_action execute_action_with
  simp [h]

/-! ## C1 -/

/-- C1: every request whose confidence is strictly below
`auto_rollback_threshold` fails admission and never executes — the
blocked result is returned and the history is untouched — regardless of
the action kind and of the rate-limit state; when the kill-switch is on
(remediation enabled) the first failing check is the confidence check,
i.e. the spec-level rejection reason is `confidence_below_threshold`. -/
theorem C1_low_confidence_never_executes (cfg : SREConfig)
    (hist : List ActionRecord) (action_type : ActionType) (params : Dict)
    (now : ℤ)
    (hconf : confidenceOf params < cfg.auto_rollback_threshold) :
    can_execute_action cfg hist action_type (confidenceOf params) now = false ∧
    execute_action cfg hist action_type params now = (blockedResult, hist) ∧
    (cfg.auto_remediation_enabled = true →
      admissionReason cfg hist (confidenceOf params) now =
        some .confidence_below_threshold) := by
  have hfalse := can_execute_false_of_low_conf cfg hist action_type
    (confidenceOf params) now hconf
  refine ⟨hfalse, exec_blocked_of_not_admitted cfg hist action_type params now hfalse, ?_⟩
  intro hen
  unfold admissionReason
  rw [if_neg (by simp [hen]), if_pos hconf]

/-- Witness for C1 at the default configuration: a `summarize_incident`
request at confidence 0.5 is refused. -/
theorem C1_witness :
    can_execute_action defaultCfg [] .summarize_incident
      (confidenceOf [("confidence", .vNum (mkRat 1 2))]) 0 = false ∧
    execute_action defaultCfg [] .summarize_incident
      [("confidence", .vNum (mkRat 1 2))] 0 = (blockedResult, []) ∧
    admissionReason defaultCfg [] (confidenceOf [("confidence", .vNum (mkRat 1 2))]) 0 =
      some .confidence_below_threshold :=
  let h := C1_low_confidence_never_executes defaultCfg [] .summarize_incident
    [("confidence", .vNum (mkRat 1 2))] 0 (by decide)
  ⟨h.1, h.2.1, h.2.2 rfl⟩

/-! ## C4 -/

/-- C4: the three admission checks run in the fixed order kill-switch,
confidence, rate limit, the first failing check deciding the rejection:
with remediation disabled every request is rejected (`policy_disabled`)
whatever its confidence or the history; with remediation enabled a low
confidence rejects with `confidence_below_threshold` even when the rate
limit is also exceeded; with both earlier checks passing a full window
rejects with `rate_limit_exceeded`; and with all three passing the
request is admitted. -/
theorem C4_admission_check_order (cfg : SREConfig) (hist : List ActionRecord)
    (conf : ℚ) (now : ℤ) :
    (cfg.auto_remediation_enabled = false →
       admissionReason cfg hist conf now = some .policy_disabled ∧
       ∀ (action_type : ActionType) (params : Dict),
         execute_action cfg hist action_type params now = (blockedResult, hist)) ∧
    (cfg.auto_remediation_enabled = true →
       conf < cfg.auto_rollback_threshold →
       admissionReason cfg hist conf now = some .confidence_below_threshold) ∧
    (cfg.auto_remediation_enabled = true →
       ¬ conf < cfg.auto_rollback_threshold →
       (windowCount hist now : ℤ) ≥ cfg.max_auto_actions_per_incident →
       admissionReason cfg hist conf now = some .rate_limit_exceeded) ∧
    (cfg.auto_remediation_enabled = true →
       ¬ conf < cfg.auto_rollback_threshold →
       (windowCount hist now : ℤ) < cfg.max_auto_actions_per_incident →
       admissionReason cfg hist conf now = none ∧
       ∀ action_type : ActionType,
         can_execute_action cfg hist action_type conf now = true) := by
  refine ⟨fun hdis => ⟨?_, fun aty params => ?_⟩, fun hen hlow => ?_,
    fun hen hhigh hfull => ?_, fun hen hhigh hroom => ⟨?_, fun aty => ?_⟩⟩
  · unfold admissionReason; rw [if_pos (by simp [hdis])]
  · exact exec_blocked_of_not_admitted cfg hist aty params now
      (can_execute_false_of_disabled cfg hist aty (confidenceOf params) now hdis)
  · unfold admissionReason; rw [if_neg (by simp [hen]), if_pos hlow]
  · unfold admissionReason
    rw [if_neg (by simp [hen]), if_neg hhigh, if_pos hfull]
  · unfold admissionReason
    rw [if_neg (by simp [hen]), if_neg hhigh, if_neg (by omega)]
  · exact (can_execute_iff cfg hist aty conf now).mpr ⟨hen, hhigh, hroom⟩

/-- Witness for C4: the kill-switch case at a disabled configuration
and confidence 0.9, and the other three cases at the default (enabled)
configuration. -/
theorem C4_witness :
    (admissionReason { defaultCfg with auto_remediation_enabled := false } []
        (mkRat 9 10) 0 = some .policy_disabled ∧
      execute_action { defaultCfg with auto_remediation_enabled := false } []
        .trigger_auto_rollback [("confidence", .vNum (mkRat 9 10))] 0 =
        (blockedResult, [])) ∧
    admissionReason defaultCfg [] (mkRat 1 2) 0 = some .confidence_below_threshold ∧
    admissionReason defaultCfg
      [⟨.summarize_incident, [], [], 0⟩, ⟨.summarize_incident, [], [], 0⟩,
       ⟨.summarize_incident, [], [], 0⟩] (mkRat 9 10) 0 = some .rate_limit_exceeded ∧
    admissionReason defaultCfg [] (mkRat 9 10) 0 = none ∧
    can_execute_action defaultCfg [] .open_jira_ticket (mkRat 9 10) 0 = true := by
  have h1 := (C4_admission_check_order
    { defaultCfg with auto_remediation_enabled := false } [] (mkRat 9 10) 0).1 rfl
  have h2 := (C4_admission_check_order defaultCfg [] (mkRat 1 2) 0).2.1 rfl (by decide)
  have h3 := (C4_admission_check_order defaultCfg
    [⟨.summarize_incident, [], [], 0⟩, ⟨.summarize_incident, [], [], 0⟩,
     ⟨.summarize_incident, [], [], 0⟩] (mkRat 9 10) 0).2.2.1 rfl (by decide) (by decide)
  have h4 := (C4_admission_check_order defaultCfg [] (mkRat 9 10) 0).2.2.2 rfl
    (by decide) (by decide)
  exact ⟨⟨h1.1, h1.2 .trigger_auto_rollback [("confidence", .vNum (mkRat 9 10))]⟩,
    h2, h3, h4.1, h4.2 .open_jira_ticket⟩

/-! ## C5 -/

/-- C5: when an admitted action's handler raises an exception with
message `e`, the engine catches it and hands the caller the structured
failure `{"success": False, "error": e}` — the total function
`execute_action_with` returns it as an ordinary value, so the fault is
never propagated. -/
theorem C5_handler_exception_caught (cfg : SREConfig)
    (hist : List ActionRecord) (action_type : ActionType) (params : Dict)
    (now : ℤ) (e : String)
    (hadm : can_execute_action cfg hist action_type (confidenceOf params) now = true) :
    (execute_action_with cfg hist action_type params now (.error e)).1 =
      [("success", .vBool false), ("error", .vStr e)] := by
  unfold execute_action_with
  simp [hadm, caughtResult]

/-- Witness for C5: an admitted `summarize_incident` whose handler
raises "boom" yields the structured failure dictionary. -/
theorem C5_witness :
    (execute_action_with defaultCfg [] .summarize_incident
      [("confidence", .vNum (mkRat 9 10))] 0 (.error "boom")).1 =
      [("success", .vBool false), ("error", .vStr "boom")] :=
  C5_handler_exception_caught defaultCfg [] .summarize_incident
    [("confidence", .vNum (mkRat 9 10))] 0 "boom" (by decide)

/-! ## C10 -/

/-- C10: a parameter mapping with no "confidence" entry is evaluated at
confidence `0.0`, so under any strictly positive threshold (the default
0.8 included) the request is refused and never executes. -/
theorem C10_missing_confidence_rejected (cfg : SREConfig)
    (hist : List ActionRecord) (action_type : ActionType) (params : Dict)
    (now : ℤ)
    (habs : getVal params "confidence" = none)
    (hpos : 0 < cfg.auto_rollback_threshold) :
    confidenceOf params = 0 ∧
    can_execute_action cfg hist action_type (confidenceOf params) now = false ∧
    execute_action cfg hist action_type params now = (blockedResult, hist) := by
  have hzero : confidenceOf params = 0 := by
    unfold confidenceOf dictGetD
    rw [habs]
    rfl
  have hfalse := can_execute_false_of_low_conf cfg hist action_type
    (confidenceOf params) now (by rw [hzero]; exact hpos)
  exact ⟨hzero, hfalse,
    exec_blocked_of_not_admitted cfg hist action_type params now hfalse⟩

/-- Witness for C10: a `trigger_auto_rollback` submitted with empty
parameters against the default configuration is refused. -/
theorem C10_witness :
    confidenceOf [] = 0 ∧
    can_execute_action defaultCfg [] .trigger_auto_rollback (confidenceOf []) 0 = false ∧
    execute_action defaultCfg [] .trigger_auto_rollback [] 0 = (blockedResult, []) :=
  C10_missing_confidence_rejected defaultCfg [] .trigger_auto_rollback [] 0
    (by decide) (by decide)

/-! ## C3 -/

/-- C3 counterexample: an admitted `summarize_incident` at confidence
0.9 whose handler raises "boom" is NOT appended to the history — the
`try` block of `execute_action` spans both the dispatch and the
`action_history.append`, so a raised exception skips the append and
lands in the `except` clause.  The admitted action therefore gets zero
history records, not exactly one. -/
theorem C3_counterexample :
    can_execute_action defaultCfg [] .summarize_incident
      (confidenceOf [("confidence", .vNum (mkRat 9 10))]) 0 = true ∧
    execute_action_with defaultCfg [] .summarize_incident
      [("confidence", .vNum (mkRat 9 10))] 0 (.error "boom") =
      (caughtResult "boom", []) := by
  decide

/-- C3 (amended): an admitted action whose handler returns normally —
success or failure payload alike — is appended to the history exactly
once, carrying exactly the result returned to the caller; an admitted
action whose handler raises is NOT appended (only the structured
failure is returned); a rejected action is never appended. -/
theorem C3_history_discipline (cfg : SREConfig) (hist : List ActionRecord)
    (action_type : ActionType) (params : Dict) (now : ℤ) :
    (can_execute_action cfg hist action_type (confidenceOf params) now = true →
       execute_action cfg hist action_type params now =
         (dispatch cfg now action_type params,
          hist ++ [⟨action_type, params, dispatch cfg now action_type params, now⟩]) ∧
       ∀ e, execute_action_with cfg hist action_type params now (.error e) =
         (caughtResult e, hist)) ∧
    (can_execute_action cfg hist action_type (confidenceOf params) now = false →
       execute_action cfg hist action_type params now = (blockedResult, hist)) := by
  refine ⟨fun hadm => ⟨exec_of_admitted cfg hist action_type params now hadm,
    fun e => ?_⟩, fun hrej => exec_blocked_of_not_admitted cfg hist action_type
      params now hrej⟩
  unfold execute_action_with
  simp [hadm]

/-- Witness for C3 (amended), at the default configuration: an admitted
case and a rejected case. -/
theorem C3_witness :
    (execute_action defaultCfg [] .summarize_incident
        [("confidence", .vNum (mkRat 9 10))] 5 =
      (dispatch defaultCfg 5 .summarize_incident [("confidence", .vNum (mkRat 9 10))],
       [⟨.summarize_incident, [("confidence", .vNum (mkRat 9 10))],
         dispatch defaultCfg 5 .summarize_incident
           [("confidence", .vNum (mkRat 9 10))], 5⟩])) ∧
    execute_action defaultCfg [] .summarize_incident
      [("confidence", .vNum (mkRat 1 10))] 5 = (blockedResult, []) := by
  have h1 := ((C3_history_discipline defaultCfg [] .summarize_incident
    [("confidence", .vNum (mkRat 9 10))] 5).1 (by decide)).1
  have h2 := (C3_history_discipline defaultCfg [] .summarize_incident
    [("confidence", .vNum (mkRat 1 10))] 5).2 (by decide)
  simpa using ⟨h1, h2⟩

/-! ## C8 -/

/-- C8 counterexample: `trigger_auto_rollback` with no `deployment_id`
in the parameters does NOT fail — the admitted action returns
`{"success": True, "rollback_target": None,
"status": "rollback_initiated"}`, with no `RemediationTargetMissing`
signal anywhere in the code. -/
theorem C8_counterexample :
    getVal ([("confidence", Value.vNum (mkRat 9 10))] : Dict) "deployment_id" = none ∧
    can_execute_action defaultCfg [] .trigger_auto_rollback
      (confidenceOf [("confidence", .vNum (mkRat 9 10))]) 0 = true ∧
    (execute_action defaultCfg [] .trigger_auto_rollback
      [("confidence", .vNum (mkRat 9 10))] 0).1 =
      [("success", .vBool true), ("rollback_target", .vNone),
       ("status", .vStr "rollback_initiated")] := by
  decide

/-- C8 (amended): an admitted `trigger_auto_rollback` whose parameters
contain `deployment_id = d` returns a result with
`rollback_target = d` and `status = "rollback_initiated"`; when
`deployment_id` is absent the handler still reports success, with
`rollback_target = None` — no failure is signalled. -/
theorem C8_rollback_result (cfg : SREConfig) (hist : List ActionRecord)
    (params : Dict) (now : ℤ)
    (hadm : can_execute_action cfg hist .trigger_auto_rollback
      (confidenceOf params) now = true) :
    (∀ d : Value, getVal params "deployment_id" = some d →
       (execute_action cfg hist .trigger_auto_rollback params now).1 =
         [("success", .vBool true), ("rollback_target", d),
          ("status", .vStr "rollback_initiated")]) ∧
    (getVal params "deployment_id" = none →
       (execute_action cfg hist .trigger_auto_rollback params now).1 =
         [("success", .vBool true), ("rollback_target", .vNone),
          ("status", .vStr "rollback_initiated")]) := by
  have hexec := exec_of_admitted cfg hist .trigger_auto_rollback params now hadm
  constructor
  · intro d hd
    rw [hexec]
    simp [dispatch, trigger_auto_rollback_h, dictGetD, hd]
  · intro hd
    rw [hexec]
    simp [dispatch, trigger_auto_rollback_h, dictGetD, hd]

/-- Witness for C8 (amended): a rollback of deployment "deploy-42" at
confidence 0.9 under the default configuration. -/
theorem C8_witness :
    (execute_action defaultCfg [] .trigger_auto_rollback
      [("confidence", .vNum (mkRat 9 10)), ("deployment_id", .vStr "deploy-42")] 0).1 =
      [("success", .vBool true), ("rollback_target", .vStr "deploy-42"),
       ("status", .vStr "rollback_initiated")] :=
  (C8_rollback_result defaultCfg []
    [("confidence", .vNum (mkRat 9 10)), ("deployment_id", .vStr "deploy-42")] 0
    (by decide)).1 (.vStr "deploy-42") (by decide)

/-! ## C9 -/

/-- C9 counterexample: an admitted `scale_service` action at confidence
0.9 is not routed to any handler of its own — it falls into the `else`
branch and is treated exactly as an unknown action type. -/
theorem C9_counterexample :
    can_execute_action defaultCfg [] .scale_service
      (confidenceOf [("confidence", .vNum (mkRat 9 10))]) 0 = true ∧
    (execute_action defaultCfg [] .scale_service
      [("confidence", .vNum (mkRat 9 10))] 0).1 =
      [("success", .vBool false), ("reason", .vStr "Unknown action type")] := by
  decide

/-- C9 (amended): the dispatch covers five of the eight enum variants
with a handler of their own; an admitted `scale_service`,
`restart_service` or `update_config` action falls through to the
unknown-action branch, returning
`{"success": False, "reason": "Unknown action type"}` (and is still
recorded in the history with that outcome). -/
theorem C9_dispatch_coverage (cfg : SREConfig) (hist : List ActionRecord)
    (params : Dict) (now : ℤ) :
    (∀ action_type : ActionType,
       (action_type = .scale_service ∨ action_type = .restart_service ∨
        action_type = .update_config) →
       can_execute_action cfg hist action_type (confidenceOf params) now = true →
       execute_action cfg hist action_type params now =
         (unknownResult, hist ++ [⟨action_type, params, unknownResult, now⟩])) ∧
    dispatch cfg now .summarize_incident params = summarize_incident_h params ∧
    dispatch cfg now .propose_remediation params = propose_remediation_h params ∧
    dispatch cfg now .trigger_auto_rollback params = trigger_auto_rollback_h params ∧
    dispatch cfg now .open_jira_ticket params = open_jira_ticket_h cfg now ∧
    dispatch cfg now .open_slack_channel params = open_slack_channel_h cfg params := by
  refine ⟨fun aty hmem hadm => ?_, rfl, rfl, rfl, rfl, rfl⟩
  have hexec := exec_of_admitted cfg hist aty params now hadm
  have hdisp : dispatch cfg now aty params = unknownResult := by
    rcases hmem with h | h | h <;> subst h <;> rfl
  rw [hexec, hdisp]

/-- Witness for C9 (amended): an admitted `restart_service` at
confidence 0.9 under the default configuration ends in the
unknown-action record. -/
theorem C9_witness :
    execute_action defaultCfg [] .restart_service
      [("confidence", .vNum (mkRat 9 10))] 0 =
      (unknownResult,
       [⟨.restart_service, [("confidence", .vNum (mkRat 9 10))], unknownResult, 0⟩]) :=
  (C9_dispatch_coverage defaultCfg [] [("confidence", .vNum (mkRat 9 10))] 0).1
    .restart_service (Or.inr (Or.inl rfl)) (by decide)

/-! ## C6 -/

lemma cacheGet_cacheSet (c : Cache) (k : String) (e : InsightEntry) :
    cacheGet (cacheSet c k e) k = some e := by
  induction c with
  | nil => simp [cacheSet, cacheGet]
  | cons p rest ih =>
    obtain ⟨k', e'⟩ := p
    unfold cacheSet
    by_cases h : k' = k
    · simp [h, cacheGet]
    · simp [h, cacheGet, ih]

/-- C6 counterexample: with `ttl = 0`, `get_insight` immediately after
`store_insight` — at the very same instant — already returns absence
(the guard is strict: `now - timestamp < ttl` fails at `0 < 0`), even
though the entry is physically present in the cache.  So "get
immediately after store returns the value" does not hold for every
ttl. -/
theorem C6_counterexample :
    store_insight [] "health_check" [("score", .vNum 85)] 0 5 =
      [("health_check", ⟨[("score", .vNum 85)], 5, 0⟩)] ∧
    get_insight (store_insight [] "health_check" [("score", .vNum 85)] 0 5)
      "health_check" 5 = none := by
  decide

/-- C6 (amended): for every strictly positive ttl, `get_insight`
immediately after `store_insight` returns the stored value; whenever
`now - stored_at ≥ ttl` the entry is expired and `get_insight` returns
absence while the entry stays physically resident; and `store_insight`
unconditionally replaces any existing entry for the key, restamping
`stored_at` with the current time. -/
theorem C6_cache_contract (c : Cache) (k : String) (data : Dict)
    (ttl now : ℤ) :
    cacheGet (store_insight c k data ttl now) k = some ⟨data, now, ttl⟩ ∧
    (0 < ttl → get_insight (store_insight c k data ttl now) k now = some data) ∧
    ∀ later : ℤ, later - now ≥ ttl →
      get_insight (store_insight c k data ttl now) k later = none := by
  refine ⟨cacheGet_cacheSet c k ⟨data, now, ttl⟩, fun httl => ?_, fun later hl => ?_⟩
  · simp only [get_insight, store_insight, cacheGet_cacheSet]
    rw [if_pos (by omega)]
  · simp only [get_insight, store_insight, cacheGet_cacheSet]
    rw [if_neg (by omega)]

/-- Witness for C6 (amended): a one-hour insight stored at time 100 is
readable at time 100, expired at time 3700, and physically present at
both. -/
theorem C6_witness :
    cacheGet (store_insight [] "trend_analysis" [("v", .vStr "up")] 3600 100)
      "trend_analysis" = some ⟨[("v", .vStr "up")], 100, 3600⟩ ∧
    get_insight (store_insight [] "trend_analysis" [("v", .vStr "up")] 3600 100)
      "trend_analysis" 100 = some [("v", .vStr "up")] ∧
    get_insight (store_insight [] "trend_analysis" [("v", .vStr "up")] 3600 100)
      "trend_analysis" 3700 = none :=
  ⟨(C6_cache_contract [] "trend_analysis" [("v", .vStr "up")] 3600 100).1,
   (C6_cache_contract [] "trend_analysis" [("v", .vStr "up")] 3600 100).2.1 (by decide),
   (C6_cache_contract [] "trend_analysis" [("v", .vStr "up")] 3600 100).2.2 3700
     (by decide)⟩

/-! ## C2 -/

/-- `timesMono t trace` says the submission clocks of `trace` are
nondecreasing and all at or after `t` (real wall-clock time is
monotone). -/
def timesMono (t : ℤ) : List (ActionType × Dict × ℤ) → Bool
  | [] => true
  | (_, _, u) :: rest => decide (t ≤ u) && timesMono u rest

/-- The clock of the last submission of a trace (`t` when empty). -/
def lastTime (t : ℤ) : List (ActionType × Dict × ℤ) → ℤ
  | [] => t
  | (_, _, u) :: rest => lastTime u rest

lemma filter_length_mono {α : Type} (l : List α) (p q : α → Bool)
    (h : ∀ a ∈ l, p a = true → q a = true) :
    (l.filter p).length ≤ (l.filter q).length := by
  induction l with
  | nil => simp
  | cons x xs ih =>
    have hx := h x (List.mem_cons_self x xs)
    have ih' := ih fun a ha hpa => h a (List.mem_cons_of_mem x ha) hpa
    by_cases hp : p x = true
    · rw [List.filter_cons_of_pos hp, List.filter_cons_of_pos (hx hp)]
      simpa using ih'
    · rw [List.filter_cons_of_neg (by simpa using hp)]
      by_cases hq : q x = true
      · rw [List.filter_cons_of_pos hq]
        exact Nat.le_succ_of_le ih'
      · rw [List.filter_cons_of_neg (by simpa using hq)]
        exact ih'

/-- The trailing-window count is antitone in the clock: a record inside
the window at a later instant (`u - ts < 1h`) was inside it at any
earlier instant as well (the window check has no lower bound). -/
lemma windowCount_anti (hist : List ActionRecord) {t u : ℤ} (htu : t ≤ u) :
    windowCount hist u ≤ windowCount hist t := by
  unfold windowCount recentActions
  apply filter_length_mono
  intro a _ ha
  simp only [decide_eq_true_eq] at *
  omega

lemma windowCount_append (hist : List ActionRecord) (r : ActionRecord)
    (now : ℤ) :
    windowCount (hist ++ [r]) now =
      windowCount hist now + if now - r.timestamp < hourSeconds then 1 else 0 := by
  unfold windowCount recentActions
  rw [List.filter_append]
  by_cases h : now - r.timestamp < hourSeconds
  · simp [h]
  · simp [h]

/-- The rate-limit invariant: at instant `t` the trailing window holds
at most `max_auto_actions_per_incident` records. -/
def HistInv (cfg : SREConfig) (hist : List ActionRecord) (t : ℤ) : Prop :=
  (windowCount hist t : ℤ) ≤ cfg.max_auto_actions_per_incident

lemma step_inv (cfg : SREConfig) {hist : List ActionRecord} {t t' : ℤ}
    (hinv : HistInv cfg hist t) (hle : t ≤ t') (a : ActionType) (p : Dict) :
    HistInv cfg (execute_action cfg hist a p t').2 t' := by
  have hanti : (windowCount hist t' : ℤ) ≤ (windowCount hist t : ℤ) := by
    exact_mod_cast windowCount_anti hist hle
  by_cases hadm : can_execute_action cfg hist a (confidenceOf p) t' = true
  · have hlt := ((can_execute_iff cfg hist a (confidenceOf p) t').mp hadm).2.2
    rw [exec_of_admitted cfg hist a p t' hadm]
    show (windowCount (hist ++ [⟨a, p, dispatch cfg t' a p, t'⟩]) t' : ℤ) ≤ _
    rw [windowCount_append]
    show ((windowCount hist t' + if t' - t' < hourSeconds then 1 else 0 : ℕ) : ℤ) ≤ _
    rw [if_pos (by unfold hourSeconds; omega)]
    push_cast
    omega
  · rw [exec_blocked_of_not_admitted cfg hist a p t'
      (Bool.not_eq_true _ ▸ Bool.of_not_eq_true hadm)]
    show (windowCount hist t' : ℤ) ≤ _
    unfold HistInv at hinv
    omega

lemma submitAll_inv (cfg : SREConfig) :
    ∀ (trace : List (ActionType × Dict × ℤ)) (hist : List ActionRecord) (t : ℤ),
      HistInv cfg hist t → timesMono t trace = true →
      HistInv cfg (submitAll cfg hist trace).2 (lastTime t trace) := by
  intro trace
  induction trace with
  | nil =>
    intro hist t h _
    simpa [submitAll, lastTime] using h
  | cons x rest ih =>
    intro hist t h hmono
    obtain ⟨a, p, u⟩ := x
    simp only [timesMono, Bool.and_eq_true, decide_eq_true_eq] at hmono
    show HistInv cfg (submitAll cfg (execute_action cfg hist a p u).2 rest).2
      (lastTime u rest)
    exact ih _ u (step_inv cfg h hmono.1 a p) hmono.2

/-- The five-submission scenario of the spec: `summarize_incident` at
confidence 0.9, five times within one minute. -/
def demoTrace : List (ActionType × Dict × ℤ) :=
  [(.summarize_incident, [("confidence", .vNum (mkRat 9 10))], 0),
   (.summarize_incident, [("confidence", .vNum (mkRat 9 10))], 10),
   (.summarize_incident, [("confidence", .vNum (mkRat 9 10))], 20),
   (.summarize_incident, [("confidence", .vNum (mkRat 9 10))], 30),
   (.summarize_incident, [("confidence", .vNum (mkRat 9 10))], 40)]

/-- C2: (i) starting from an empty history, any monotone-clock sequence
of submissions leaves at most `max_auto_actions_per_incident` records
inside the trailing one-hour window, at the last submission instant and
ever after; (ii) once the window holds at least that many records, the
next admission attempt passing the two earlier checks is rejected, with
spec-level reason `rate_limit_exceeded`, and nothing executes; (iii) in
particular five `summarize_incident` submissions at confidence 0.9
within one minute of each other, under the default configuration
(threshold 0.8, window 1h, max 3, remediation enabled), yield three
admitted executions and two rejections. -/
theorem C2_rate_limit (cfg : SREConfig)
    (hmax : 0 ≤ cfg.max_auto_actions_per_incident) :
    (∀ (trace : List (ActionType × Dict × ℤ)) (t0 : ℤ),
       timesMono t0 trace = true →
       ∀ now : ℤ, lastTime t0 trace ≤ now →
       (windowCount (submitAll cfg [] trace).2 now : ℤ) ≤
         cfg.max_auto_actions_per_incident) ∧
    (∀ (hist : List ActionRecord) (action_type : ActionType) (params : Dict)
       (now : ℤ),
       cfg.auto_remediation_enabled = true →
       ¬ confidenceOf params < cfg.auto_rollback_threshold →
       (windowCount hist now : ℤ) ≥ cfg.max_auto_actions_per_incident →
       admissionReason cfg hist (confidenceOf params) now =
         some .rate_limit_exceeded ∧
       execute_action cfg hist action_type params now = (blockedResult, hist)) ∧
    ((submitAll defaultCfg [] demoTrace).1.map
        (fun d => dictGetD d "success" .vNone) =
      [.vBool true, .vBool true, .vBool true, .vBool false, .vBool false] ∧
     (submitAll defaultCfg [] demoTrace).1.drop 3 = [blockedResult, blockedResult] ∧
     (submitAll defaultCfg [] demoTrace).2.length = 3) := by
  refine ⟨fun trace t0 hmono now hnow => ?_,
    fun hist aty params now hen hconf hfull => ⟨?_, ?_⟩, by decide⟩
  · have hinv0 : HistInv cfg [] t0 := by
      unfold HistInv windowCount recentActions
      simpa using hmax
    have hfin := submitAll_inv cfg trace [] t0 hinv0 hmono
    unfold HistInv at hfin
    have hanti : (windowCount (submitAll cfg [] trace).2 now : ℤ) ≤
        (windowCount (submitAll cfg [] trace).2 (lastTime t0 trace) : ℤ) := by
      exact_mod_cast windowCount_anti _ hnow
    omega
  · unfold admissionReason
    rw [if_neg (by simp [hen]), if_neg hconf, if_pos hfull]
  · refine exec_blocked_of_not_admitted cfg hist aty params now ?_
    have : ¬ can_execute_action cfg hist aty (confidenceOf params) now = true := by
      rw [can_execute_iff]
      rintro ⟨-, -, hlt⟩
      omega
    exact Bool.not_eq_true _ ▸ Bool.of_not_eq_true this

/-- Witness for C2 at the default configuration: after the
five-submission scenario the window still holds at most three records
at time 40; and against a history of three records already in the
window, a 0.9-confidence submission is rejected with
`rate_limit_exceeded`. -/
theorem C2_witness :
    (windowCount (submitAll defaultCfg [] demoTrace).2 40 : ℤ) ≤
      defaultCfg.max_auto_actions_per_incident ∧
    admissionReason defaultCfg
      [⟨.summarize_incident, [], [], 0⟩, ⟨.summarize_incident, [], [], 0⟩,
       ⟨.summarize_incident, [], [], 0⟩]
      (confidenceOf [("confidence", .vNum (mkRat 9 10))]) 0 =
      some .rate_limit_exceeded ∧
    execute_action defaultCfg
      [⟨.summarize_incident, [], [], 0⟩, ⟨.summarize_incident, [], [], 0⟩,
       ⟨.summarize_incident, [], [], 0⟩]
      .summarize_incident [("confidence", .vNum (mkRat 9 10))] 0 =
      (blockedResult,
       [⟨.summarize_incident, [], [], 0⟩, ⟨.summarize_incident, [], [], 0⟩,
        ⟨.summarize_incident, [], [], 0⟩]) := by
  have h := C2_rate_limit defaultCfg (by decide)
  have h1 := h.1 demoTrace 0 (by decide) 40 (by decide)
  have h2 := h.2.1
    [⟨.summarize_incident, [], [], 0⟩, ⟨.summarize_incident, [], [], 0⟩,
     ⟨.summarize_incident, [], [], 0⟩]
    .summarize_incident [("confidence", .vNum (mkRat 9 10))] 0 rfl
    (by decide) (by decide)
  exact ⟨h1, h2.1, h2.2⟩

/-! ## C7 -/

/-- The maximal keyword score over a rule list. -/
def maxScoreOf (f : String × List String → ℕ)
    (l : List (String × List String)) : ℕ :=
  (l.map f).foldr max 0

/-- The accumulator scan performed by `get_matching_query`'s loop:
starting from `(best_match, best_score)`, update on a strictly greater
score. -/
def scanBest (f : String × List String → ℕ)
    (l : List (String × List String)) (acc : Option String × ℕ) :
    Option String × ℕ :=
  l.foldl (fun best pat => if f pat > best.2 then (some pat.1, f pat) else best) acc

lemma get_matching_query_eq_scanBest (input : String) :
    get_matching_query input =
      (scanBest (fun pat => matchScore (pyLower input) pat.2)
        queryPatterns (none, 0)).1 := rfl

lemma maxScoreOf_cons (f : String × List String → ℕ)
    (p : String × List String) (l : List (String × List String)) :
    maxScoreOf f (p :: l) = max (f p) (maxScoreOf f l) := by
  simp [maxScoreOf]

lemma le_maxScoreOf (f : String × List String → ℕ) :
    ∀ (l : List (String × List String)), ∀ p ∈ l, f p ≤ maxScoreOf f l := by
  intro l
  induction l with
  | nil => simp
  | cons q rest ih =>
    intro p hp
    rw [maxScoreOf_cons]
    rcases List.mem_cons.mp hp with h | h
    · subst h; exact Nat.le_max_left _ _
    · exact le_trans (ih p h) (Nat.le_max_right _ _)

lemma scanBest_of_le (f : String × List String → ℕ) :
    ∀ (l : List (String × List String)) (acc : Option String × ℕ),
      (∀ p ∈ l, f p ≤ acc.2) → scanBest f l acc = acc := by
  intro l
  induction l with
  | nil => intro acc _; rfl
  | cons p rest ih =>
    intro acc h
    unfold scanBest
    rw [List.foldl_cons, if_neg (by have := h p (List.mem_cons_self p rest); omega)]
    exact ih acc fun q hq => h q (List.mem_cons_of_mem p hq)

lemma scanBest_first_max (f : String × List String → ℕ) :
    ∀ (l : List (String × List String)) (acc : Option String × ℕ),
      acc.2 < maxScoreOf f l →
      (scanBest f l acc).1 =
        (l.find? (fun p => f p = maxScoreOf f l)).map Prod.fst := by
  intro l
  induction l with
  | nil => intro acc h; simp [maxScoreOf] at h
  | cons p rest ih =>
    intro acc hacc
    by_cases hp : f p = maxScoreOf f (p :: rest)
    · have hrest : maxScoreOf f rest ≤ f p := by
        have := maxScoreOf_cons f p rest
        omega
      have hgt : acc.2 < f p := by
        rw [maxScoreOf_cons] at hacc
        omega
      rw [List.find?_cons_of_pos _ (by simpa using hp)]
      unfold scanBest
      rw [List.foldl_cons, if_pos hgt]
      show (scanBest f rest (some p.1, f p)).1 = some p.1
      rw [scanBest_of_le f rest (some p.1, f p)
        (fun q hq => le_trans (le_maxScoreOf f rest q hq) hrest)]
    · have hle : f p ≤ maxScoreOf f (p :: rest) :=
        le_maxScoreOf f (p :: rest) p (List.mem_cons_self p rest)
      have heq : maxScoreOf f (p :: rest) = maxScoreOf f rest := by
        have := maxScoreOf_cons f p rest
        omega
      rw [List.find?_cons_of_neg _ (by simpa using hp)]
      unfold scanBest
      rw [List.foldl_cons]
      by_cases hgt : f p > acc.2
      · rw [if_pos hgt]
        have := ih (some p.1, f p) (by rw [← heq]; omega)
        simpa [heq] using this
      · rw [if_neg hgt]
        have := ih acc (by rw [← heq]; omega)
        simpa [heq] using this

/-- The maximal keyword score `get_matching_query` can see for a given
input. -/
def topScore (user_input : String) : ℕ :=
  maxScoreOf (fun pat => matchScore (pyLower user_input) pat.2) queryPatterns

/-- C7 counterexample: on "alert performance error rate" the first
rule in order whose trigger-keyword set hits the input is
`active_alerts` (via "alert"), yet `get_matching_query` returns
`performance_metrics`, which scores two keyword hits ("performance",
"error rate") — the procedure is best-match scoring across all
categories, not first-match short-circuit; and on an input matching no
keyword it returns absence, not a `{"read"}` capability default. -/
theorem C7_counterexample :
    get_matching_query "alert performance error rate" = some "performance_metrics" ∧
    firstMatchQuery "alert performance error rate" = some "active_alerts" ∧
    get_matching_query "hello there" = none := by
  decide

/-- C7 (amended): `get_matching_query` lower-cases the input and scores
every rule of the ordered rule list by how many of its trigger keywords
occur as substrings; if no keyword occurs it returns no match
(absence — the classification code computes no capability set and no
`{"read"}` default), and otherwise it returns the first rule attaining
the maximal score — best-match scoring across all categories with
earlier rules winning ties, not first-match short-circuiting. -/
theorem C7_best_match_classifier (user_input : String) :
    (topScore user_input = 0 → get_matching_query user_input = none) ∧
    (0 < topScore user_input →
       get_matching_query user_input =
         (queryPatterns.find? (fun pat =>
            matchScore (pyLower user_input) pat.2 = topScore user_input)).map
           Prod.fst) := by
  constructor
  · intro h0
    rw [get_matching_query_eq_scanBest]
    rw [scanBest_of_le _ _ _ (fun p hp => by
      have hle2 : matchScore (pyLower user_input) p.2 ≤
          maxScoreOf (fun pat => matchScore (pyLower user_input) pat.2)
            queryPatterns :=
        le_maxScoreOf (fun pat => matchScore (pyLower user_input) pat.2)
          queryPatterns p hp
      unfold topScore at h0
      show matchScore (pyLower user_input) p.2 ≤ 0
      omega)]
  · intro hpos
    rw [get_matching_query_eq_scanBest]
    exact scanBest_first_max _ queryPatterns (none, 0) (by
      unfold topScore at hpos
      simpa using hpos)

/-- Witness for C7 (amended): on "alert performance error rate" the top
score is two and the classifier returns the first rule attaining it
(`performance_metrics`); on "hello there" no keyword matches and the
classifier returns none. -/
theorem C7_witness :
    get_matching_query "alert performance error rate" =
      (queryPatterns.find? (fun pat =>
         matchScore (pyLower "alert performance error rate") pat.2 =
           topScore "alert performance error rate")).map Prod.fst ∧
    get_matching_query "hello there" = none :=
  ⟨(C7_best_match_classifier "alert performance error rate").2 (by decide),
   (C7_best_match_classifier "hello there").1 (by decide)⟩

end SreAgent
